import Mathlib

/-
Verification of the configuration loading and validation module of
hydrophone (pkg/common/args.go): the ArgConfig record, InitArgs and
ValidateArgs, shallowly embedded in Lean 4.

Conventions of the embedding:
  * Go errors are represented as strings, fallible operations as
    Except String.
  * The process environment enters as explicit parameters: the result of
    os.Getwd, the result of the server-version query, the outcome of
    os.Stat on the output directory, and the outcome of os.MkdirAll.
  * The go flag package is modelled by a record of optional values, one
    per registered flag: a field is some v when the flag was supplied on
    the command line (flag.Parse stores v) and none when it was not
    (the registered default is kept).
  * log.Printf and log.Fatal* are modelled as an emitted trace of
    structured log lines together with a termination bit: log.Fatal
    prints its message and exits the process, so the trace ends there.
-/

namespace Hydrophone

/-- Modelled from the spec: the built-in default conformance container
image constant `containerImage` is declared elsewhere in the repository
(not under the supplied sources); the spec only requires it to be a
registry-qualified built-in constant. -/
def containerImage : String := "registry.k8s.io/conformance:v1.28.0"

/-- Modelled from the spec: the built-in default busybox container image
constant `busyboxImage` is declared elsewhere in the repository (not
under the supplied sources); the spec only requires it to be a
registry-qualified built-in constant. -/
def busyboxImage : String := "registry.k8s.io/e2e-test-images/busybox:1.36.1-1"

/-- ArgConfig stores the arguments passed when running the program
(pkg/common/args.go, struct ArgConfig). The two Go int fields are
modelled as Int. -/
structure ArgConfig where
  Focus : String
  Skip : String
  ConformanceImage : String
  BusyboxImage : String
  Kubeconfig : String
  Parallel : Int
  Verbosity : Int
  OutputDir : String
deriving DecidableEq, Repr

/-- The command-line argument set, as seen through the flag package:
for each registered flag, some v when the flag was supplied with value
v, none when it was absent (so the registered default applies). -/
structure Args where
  focus : Option String
  skip : Option String
  conformanceImage : Option String
  busyboxImage : Option String
  kubeconfig : Option String
  parallel : Option Int
  verbosity : Option Int
  outputDir : Option String
deriving DecidableEq, Repr

/-- InitArgs (pkg/common/args.go lines 58-84). The os.Getwd call is the
explicit first parameter; the parsed command line is the second. The
flag registrations with their defaults (lines 66-75) followed by
flag.Parse (line 77) amount to: each field is the supplied value if any,
else the registered default. The focus post-condition check is lines
79-81. -/
def InitArgs (getwd : Except String String) (args : Args) :
    Except String ArgConfig :=
  match getwd with
  | Except.error e => Except.error e
  | Except.ok outputDir =>
    let cfg : ArgConfig :=
      { Focus := args.focus.getD ""
        Skip := args.skip.getD ""
        ConformanceImage := args.conformanceImage.getD containerImage
        BusyboxImage := args.busyboxImage.getD busyboxImage
        Kubeconfig := args.kubeconfig.getD ""
        Parallel := args.parallel.getD 1
        Verbosity := args.verbosity.getD 4
        OutputDir := args.outputDir.getD outputDir }
    if cfg.Focus = "" then
      Except.error "missing --focus argument (use \x27[Conformance]\x27 to run all conformance tests)"
    else
      Except.ok cfg

/-- One structured log line of ValidateArgs, one constructor per
log.Printf / log.Fatal call site, carrying the interpolated values. -/
inductive LogLine where
  | fatalServerVersion (err : String)
  | apiEndpoint (host : String)
  | serverVersion (desc : String)
  | runningTests (focus : String)
  | skippingTests (skip : String)
  | usingConformanceImage (image : String)
  | usingBusyboxImage (image : String)
  | threadsAndVerbosity (parallel verbosity : Int)
  | fatalCreatingDir (dir err : String)
deriving DecidableEq, Repr

/-- The exact text of each log line, following the format strings in
pkg/common/args.go lines 88-105 (\x27 is the single-quote character;
the server version descriptor stands for the %#v rendering of the
version.Info struct). -/
def LogLine.render : LogLine → String
  | .fatalServerVersion e => "Error fetching server version: " ++ e
  | .apiEndpoint host => "API endpoint : " ++ host
  | .serverVersion d => "Server version : " ++ d
  | .runningTests f => "Running tests : \x27" ++ f ++ "\x27"
  | .skippingTests s => "Skipping tests : \x27" ++ s ++ "\x27"
  | .usingConformanceImage i => "Using conformance image : \x27" ++ i ++ "\x27"
  | .usingBusyboxImage i => "Using busybox image : \x27" ++ i ++ "\x27"
  | .threadsAndVerbosity p v =>
      "Test framework will start \x27" ++ toString p ++
        "\x27 threads and use verbosity \x27" ++ toString v ++ "\x27"
  | .fatalCreatingDir d e =>
      "Error creating output directory [" ++ d ++ "] : " ++ e

/-- Outcome of the os.Stat call on the output directory, classified the
way line 102 of args.go inspects it: success, an error for which
os.IsNotExist holds, or any other error (for which os.IsNotExist is
false). -/
inductive StatResult where
  | ok
  | notExist
  | otherError (e : String)
deriving DecidableEq, Repr

/-- The observable outcome of a ValidateArgs run: the log lines emitted
(in order), whether the process was terminated by log.Fatal*, and
whether the output directory was created. ValidateArgs has no return
value in the source, so this records only its side effects. -/
structure ValidateResult where
  logs : List LogLine
  terminated : Bool
  dirCreated : Bool
deriving DecidableEq, Repr

/-- ValidateArgs (pkg/common/args.go lines 86-107). The incoming err
parameter is immediately overwritten on line 87 by
`serverVersion, err := client.ClientSet.ServerVersion()`, whose result
is the versionResult parameter here (the descriptor string stands for
*serverVersion). host is config.Host; statRes and mkdirRes are the
outcomes of os.Stat(cfg.OutputDir) and os.MkdirAll(cfg.OutputDir, 0755). -/
def ValidateArgs (errIn : Option String)
    (versionResult : Except String String) (host : String)
    (cfg : ArgConfig) (statRes : StatResult)
    (mkdirRes : Except String Unit) : ValidateResult :=
  let _ := errIn
  match versionResult with
  | Except.error e =>
      { logs := [LogLine.fatalServerVersion e],
        terminated := true, dirCreated := false }
  | Except.ok serverVersion =>
    let logs := [LogLine.apiEndpoint host,
                 LogLine.serverVersion serverVersion,
                 LogLine.runningTests cfg.Focus]
    let logs := if cfg.Skip ≠ "" then
                  logs ++ [LogLine.skippingTests cfg.Skip]
                else logs
    let logs := logs ++ [LogLine.usingConformanceImage cfg.ConformanceImage,
                         LogLine.usingBusyboxImage cfg.BusyboxImage,
                         LogLine.threadsAndVerbosity cfg.Parallel cfg.Verbosity]
    match statRes with
    | StatResult.notExist =>
      match mkdirRes with
      | Except.ok _ =>
          { logs := logs, terminated := false, dirCreated := true }
      | Except.error e =>
          { logs := logs ++ [LogLine.fatalCreatingDir cfg.OutputDir e],
            terminated := true, dirCreated := false }
    | _ => { logs := logs, terminated := false, dirCreated := false }

/-- The informational banner lines of a run whose version query
succeeded, in emission order (args.go lines 91-100). -/
def infoLines (host sv : String) (cfg : ArgConfig) : List LogLine :=
  [LogLine.apiEndpoint host, LogLine.serverVersion sv,
   LogLine.runningTests cfg.Focus] ++
  (if cfg.Skip = "" then [] else [LogLine.skippingTests cfg.Skip]) ++
  [LogLine.usingConformanceImage cfg.ConformanceImage,
   LogLine.usingBusyboxImage cfg.BusyboxImage,
   LogLine.threadsAndVerbosity cfg.Parallel cfg.Verbosity]

/-- An argument set supplying no flags at all. -/
def emptyArgs : Args :=
  { focus := none, skip := none, conformanceImage := none,
    busyboxImage := none, kubeconfig := none, parallel := none,
    verbosity := none, outputDir := none }

/-- An argument set supplying only the focus flag. -/
def focusOnlyArgs : Args :=
  { emptyArgs with focus := some "[Conformance]" }

/-- The configuration produced from focusOnlyArgs with working
directory /work: all optional fields at their registered defaults. -/
def cfgFocusOnly : ArgConfig :=
  { Focus := "[Conformance]", Skip := "",
    ConformanceImage := containerImage, BusyboxImage := busyboxImage,
    Kubeconfig := "", Parallel := 1, Verbosity := 4,
    OutputDir := "/work" }

/-- The configuration cfgFocusOnly with a non-empty skip expression. -/
def cfgWithSkip : ArgConfig := { cfgFocusOnly with Skip := "slow" }

/-- An argument set supplying focus together with parallel = 0. -/
def parallelZeroArgs : Args :=
  { emptyArgs with focus := some "x", parallel := some 0 }

/-- The configuration produced from parallelZeroArgs with working
directory /work. -/
def cfgParallelZero : ArgConfig :=
  { Focus := "x", Skip := "", ConformanceImage := containerImage,
    BusyboxImage := busyboxImage, Kubeconfig := "", Parallel := 0,
    Verbosity := 4, OutputDir := "/work" }

/-- C1: for every argument set in which the focus option is empty or
unset (and the working directory was determined), InitArgs returns the
error identifying the missing focus field, and no configuration
record. -/
theorem claim_C1 (args : Args) (cwd : String)
    (h : args.focus = none ∨ args.focus = some "") :
    InitArgs (Except.ok cwd) args =
      Except.error "missing --focus argument (use \x27[Conformance]\x27 to run all conformance tests)" := by
  rcases h with h | h <;> simp [InitArgs, h]

theorem claim_C1_witness :
    (emptyArgs.focus = none ∨ emptyArgs.focus = some "") ∧
    InitArgs (Except.ok "/work") emptyArgs =
      Except.error "missing --focus argument (use \x27[Conformance]\x27 to run all conformance tests)" :=
  ⟨Or.inl rfl, claim_C1 emptyArgs "/work" (Or.inl rfl)⟩

/-- C2: for every argument set with a non-empty focus (and a determined
working directory), InitArgs succeeds and every option not supplied
equals its documented default: skip "", conformance-image and
busybox-image the built-in constants, kubeconfig "", parallel 1,
verbosity 4, output-dir the current working directory. -/
theorem claim_C2 (args : Args) (cwd f : String)
    (hf : args.focus = some f) (hne : f ≠ "") :
    ∃ cfg, InitArgs (Except.ok cwd) args = Except.ok cfg ∧
      (args.skip = none → cfg.Skip = "") ∧
      (args.conformanceImage = none → cfg.ConformanceImage = containerImage) ∧
      (args.busyboxImage = none → cfg.BusyboxImage = busyboxImage) ∧
      (args.kubeconfig = none → cfg.Kubeconfig = "") ∧
      (args.parallel = none → cfg.Parallel = 1) ∧
      (args.verbosity = none → cfg.Verbosity = 4) ∧
      (args.outputDir = none → cfg.OutputDir = cwd) := by
  refine ⟨{ Focus := f,
            Skip := args.skip.getD "",
            ConformanceImage := args.conformanceImage.getD containerImage,
            BusyboxImage := args.busyboxImage.getD busyboxImage,
            Kubeconfig := args.kubeconfig.getD "",
            Parallel := args.parallel.getD 1,
            Verbosity := args.verbosity.getD 4,
            OutputDir := args.outputDir.getD cwd }, ?_, ?_, ?_, ?_, ?_, ?_, ?_, ?_⟩
  · simp [InitArgs, hf, hne]
  all_goals intro h
  all_goals simp [h]

theorem claim_C2_witness :
    ∃ cfg, InitArgs (Except.ok "/work") focusOnlyArgs = Except.ok cfg ∧
      (focusOnlyArgs.skip = none → cfg.Skip = "") ∧
      (focusOnlyArgs.conformanceImage = none → cfg.ConformanceImage = containerImage) ∧
      (focusOnlyArgs.busyboxImage = none → cfg.BusyboxImage = busyboxImage) ∧
      (focusOnlyArgs.kubeconfig = none → cfg.Kubeconfig = "") ∧
      (focusOnlyArgs.parallel = none → cfg.Parallel = 1) ∧
      (focusOnlyArgs.verbosity = none → cfg.Verbosity = 4) ∧
      (focusOnlyArgs.outputDir = none → cfg.OutputDir = "/work") :=
  claim_C2 focusOnlyArgs "/work" "[Conformance]" rfl (by decide)

/-- C3: when output-dir is not supplied, the returned OutputDir equals
the working directory determined at load time; and when os.Getwd fails,
InitArgs returns exactly that error — independently of the argument
set, hence before any flag is consulted — with no configuration
record. -/
theorem claim_C3 (args : Args) (cwd e : String) :
    (∀ cfg, args.outputDir = none →
        InitArgs (Except.ok cwd) args = Except.ok cfg →
        cfg.OutputDir = cwd) ∧
    InitArgs (Except.error e) args = Except.error e := by
  constructor
  · intro cfg hnone hok
    by_cases hf : args.focus.getD "" = ""
    · simp [InitArgs, hf] at hok
    · simp [InitArgs, hf] at hok
      subst hok
      simp [hnone]
  · rfl

theorem claim_C3_witness :
    focusOnlyArgs.outputDir = none ∧
    InitArgs (Except.ok "/work") focusOnlyArgs = Except.ok cfgFocusOnly ∧
    cfgFocusOnly.OutputDir = "/work" ∧
    InitArgs (Except.error "getwd failed") focusOnlyArgs =
      Except.error "getwd failed" :=
  ⟨rfl, rfl,
   (claim_C3 focusOnlyArgs "/work" "getwd failed").1 cfgFocusOnly rfl rfl,
   (claim_C3 focusOnlyArgs "/work" "getwd failed").2⟩

/-- C4: whenever the server-version query fails, ValidateArgs logs only
the failure message and terminates: the trace holds exactly that one
line, the terminated bit is set, and the directory is not created —
regardless of the configuration, host, filesystem state, and incoming
error argument. -/
theorem claim_C4 (errIn : Option String) (e host : String)
    (cfg : ArgConfig) (statRes : StatResult)
    (mkdirRes : Except String Unit) :
    ValidateArgs errIn (Except.error e) host cfg statRes mkdirRes =
      { logs := [LogLine.fatalServerVersion e],
        terminated := true, dirCreated := false } := rfl

/-- C5: with an empty skip expression no Skipping-tests line appears in
the log output of ValidateArgs; with a non-empty skip expression the
Skipping-tests line carrying exactly that skip value is emitted. -/
theorem claim_C5 (errIn : Option String) (sv host : String)
    (cfg : ArgConfig) (statRes : StatResult)
    (mkdirRes : Except String Unit) :
    (cfg.Skip = "" →
      ∀ l ∈ (ValidateArgs errIn (Except.ok sv) host cfg statRes mkdirRes).logs,
        ∀ s, l ≠ LogLine.skippingTests s) ∧
    (cfg.Skip ≠ "" →
      LogLine.skippingTests cfg.Skip ∈
        (ValidateArgs errIn (Except.ok sv) host cfg statRes mkdirRes).logs) := by
  constructor
  · intro hskip l hl s heq
    subst heq
    cases statRes <;> cases mkdirRes <;> simp [ValidateArgs, hskip] at hl
  · intro hskip
    cases statRes <;> cases mkdirRes <;> simp [ValidateArgs, hskip]

theorem claim_C5_witness :
    LogLine.skippingTests "slow" ∉
      (ValidateArgs none (Except.ok "v1.28.0") "https://h:6443"
        cfgFocusOnly StatResult.ok (Except.ok ())).logs ∧
    LogLine.skippingTests "slow" ∈
      (ValidateArgs none (Except.ok "v1.28.0") "https://h:6443"
        cfgWithSkip StatResult.ok (Except.ok ())).logs := by
  constructor
  · intro hmem
    exact (claim_C5 none "v1.28.0" "https://h:6443" cfgFocusOnly
      StatResult.ok (Except.ok ())).1 rfl _ hmem "slow" rfl
  · exact (claim_C5 none "v1.28.0" "https://h:6443" cfgWithSkip
      StatResult.ok (Except.ok ())).2 (by decide)

/-- C6: after a successful version query, when the output directory does
not exist ValidateArgs creates it and completes; when it already exists
nothing fails and nothing is created; when creation fails the failure is
logged after the banner and the process terminates. -/
theorem claim_C6 (errIn : Option String) (sv host : String)
    (cfg : ArgConfig) (e : String) (mkdirRes : Except String Unit) :
    (ValidateArgs errIn (Except.ok sv) host cfg StatResult.notExist (Except.ok ()) =
      { logs := infoLines host sv cfg, terminated := false, dirCreated := true }) ∧
    (ValidateArgs errIn (Except.ok sv) host cfg StatResult.ok mkdirRes =
      { logs := infoLines host sv cfg, terminated := false, dirCreated := false }) ∧
    (ValidateArgs errIn (Except.ok sv) host cfg StatResult.notExist (Except.error e) =
      { logs := infoLines host sv cfg ++ [LogLine.fatalCreatingDir cfg.OutputDir e],
        terminated := true, dirCreated := false }) := by
  refine ⟨?_, ?_, ?_⟩ <;> by_cases h : cfg.Skip = "" <;>
    simp [ValidateArgs, infoLines, h]

/-- C7: on a run whose version query succeeds, the informational lines
are exactly: API endpoint host, server version descriptor, focus
expression, the skip line only when skip is non-empty, conformance
image, busybox image, and the combined parallelism/verbosity line, in
that order; only a directory-creation failure appends a further line. -/
theorem claim_C7 (errIn : Option String) (sv host : String)
    (cfg : ArgConfig) (statRes : StatResult)
    (mkdirRes : Except String Unit) :
    (ValidateArgs errIn (Except.ok sv) host cfg statRes mkdirRes).logs =
      infoLines host sv cfg ++
        (match statRes, mkdirRes with
         | StatResult.notExist, Except.error e =>
             [LogLine.fatalCreatingDir cfg.OutputDir e]
         | _, _ => []) := by
  cases statRes <;> cases mkdirRes <;> by_cases h : cfg.Skip = "" <;>
    simp [ValidateArgs, infoLines, h]

/-- C8 (amended): the claim that every returned configuration has
parallelism at least 1 fails, because a supplied parallel value is
stored unvalidated; what holds is that whenever the parallel option is
not supplied, the returned configuration has parallelism exactly the
default 1, hence at least 1. -/
theorem claim_C8 (getwd : Except String String) (args : Args)
    (cfg : ArgConfig) (hp : args.parallel = none)
    (hok : InitArgs getwd args = Except.ok cfg) :
    1 ≤ cfg.Parallel := by
  cases getwd with
  | error e => simp [InitArgs] at hok
  | ok cwd =>
    by_cases hf : args.focus.getD "" = ""
    · simp [InitArgs, hf] at hok
    · simp [InitArgs, hf] at hok
      subst hok
      simp [hp]

theorem claim_C8_witness :
    focusOnlyArgs.parallel = none ∧
    InitArgs (Except.ok "/work") focusOnlyArgs = Except.ok cfgFocusOnly ∧
    1 ≤ cfgFocusOnly.Parallel :=
  ⟨rfl, rfl,
   claim_C8 (Except.ok "/work") focusOnlyArgs cfgFocusOnly rfl rfl⟩

theorem claim_C8_counterexample :
    InitArgs (Except.ok "/work") parallelZeroArgs = Except.ok cfgParallelZero ∧
    ¬ 1 ≤ cfgParallelZero.Parallel := by
  refine ⟨rfl, by decide⟩

/-- C9: the behavior of ValidateArgs does not depend on the incoming
error argument, which is overwritten before first use: any two runs
differing only in that argument have identical traces, termination and
directory effects. -/
theorem claim_C9 (e1 e2 : Option String)
    (versionResult : Except String String) (host : String)
    (cfg : ArgConfig) (statRes : StatResult)
    (mkdirRes : Except String Unit) :
    ValidateArgs e1 versionResult host cfg statRes mkdirRes =
      ValidateArgs e2 versionResult host cfg statRes mkdirRes := rfl

/-- C10: when the stat on the output directory fails with an error other
than not-exist, ValidateArgs neither creates the directory nor reports
any failure: it emits the normal banner and completes without
terminating. -/
theorem claim_C10 (errIn : Option String) (sv host : String)
    (cfg : ArgConfig) (e : String) (mkdirRes : Except String Unit) :
    ValidateArgs errIn (Except.ok sv) host cfg
        (StatResult.otherError e) mkdirRes =
      { logs := infoLines host sv cfg,
        terminated := false, dirCreated := false } := by
  by_cases h : cfg.Skip = "" <;> simp [ValidateArgs, infoLines, h]

end Hydrophone
